import Mathlib

/-!
Verification of the Fiscal-Year-2025 Budget-Justification RAG repository.

The development shallowly embeds the two source files:

* `src/model.py` — the `EnhancedMathRAGSystem` class: FAISS `IndexFlatIP`
  construction over L2-normalized sentence embeddings
  (`create_vector_index`, lines 16-35) and similarity retrieval
  (`retrieve_similar_problems`, lines 37-58).
* `src/server.py` — the FastAPI handlers `ask_question` (lines 119-188),
  `process_single_question` (lines 190-251) and `ask_batch_questions`
  (lines 253-284), including the line-based section parser that both
  question-processing paths share.

Externals are modelled at their interface boundary: the embedding model is
an arbitrary function `String → Vector`, FAISS L2 normalization is an
arbitrary function `Vector → Vector` applied identically on both sides
(the float square root is not representable exactly, and nothing proved
here depends on its value), and the language-model / database calls that
`server.py` imports from its `model` module are arbitrary fallible
functions `String → Except String String`.  Machine floats are modelled
as rationals.
-/

/-! ### Python string primitives, modelled structurally -/

/-- Python `str.split` on a single character 1, modelled on the character
list of the string.  `"a\nb".split` gives `["a","b"]`, a trailing
separator yields a trailing empty string, and the empty string splits to
`[""]` — exactly CPython semantics for `split('\n')`. -/
def splitLinesChars : List Char → List (List Char)
  | [] => [[]]
  | c :: rest =>
    let r := splitLinesChars rest
    if c = '\n' then [] :: r
    else
      match r with
      | [] => [[c]]
      | h :: t => (c :: h) :: t

/-- Python `s.split('\n')` for a Lean `String`. -/
def splitLines (s : String) : List String :=
  (splitLinesChars s.data).map (fun cs => String.mk cs)

/-- List-level startswith test. -/
def listStartsWith : List Char → List Char → Bool
  | _, [] => true
  | [], _ :: _ => false
  | a :: as, b :: bs => a = b && listStartsWith as bs

/-- Python `s.startswith(p)`. -/
def strStartsWith (s p : String) : Bool :=
  listStartsWith s.data p.data

/-- Python `s.strip()`: drop leading and trailing whitespace. -/
def pyStrip (s : String) : String :=
  String.mk (((s.data.dropWhile Char.isWhitespace).reverse.dropWhile Char.isWhitespace).reverse)

/-! ### The section parser shared by `ask_question` and
`process_single_question` (src/server.py lines 137-172 and 203-236).

Both handlers scan the generated text line by line: a line starting with
`ANSWER:` / `SOURCES:` / `RELEVANT EXCERPTS:` switches the active
section (and is itself consumed by `continue`), any other line is
appended (plus a newline) to the buffer of the currently active section,
and the initial active section is the empty string, under which
non-marker lines are appended to no buffer.  At the end each buffer is
`strip()`ped. -/

/-- Result payload dictionary of a processed question: either the parsed
three-field structure, or the raw-output fallback dictionary, or the
empty dictionary `{}` returned on failure by `ask_question`. -/
inductive PyResult where
  | structuredFields (answer sources excerpts : String)
  | rawOutput (s : String)
  | emptyDict
deriving DecidableEq

/-- Parser state: the three accumulating buffers plus `current_section`. -/
structure ParseAcc where
  answer : String
  sources : String
  excerpts : String
  current : String
deriving DecidableEq

/-- One iteration of the `for line in lines` loop of
src/server.py lines 148-164 (identically lines 211-227). -/
def parseLine (acc : ParseAcc) (line : String) : ParseAcc :=
  if strStartsWith line "ANSWER:" then { acc with current := "answer" }
  else if strStartsWith line "SOURCES:" then { acc with current := "sources" }
  else if strStartsWith line "RELEVANT EXCERPTS:" then { acc with current := "excerpts" }
  else if acc.current = "answer" then { acc with answer := acc.answer ++ line ++ "\n" }
  else if acc.current = "sources" then { acc with sources := acc.sources ++ line ++ "\n" }
  else if acc.current = "excerpts" then { acc with excerpts := acc.excerpts ++ line ++ "\n" }
  else acc

/-- The whole parse step: split on newlines, fold the loop body from the
empty state, `strip()` the three buffers (src/server.py lines 137-170).
The surrounding `try/except` falls back to `{"raw_output": res}` only
when this computation raises; for a string result none of `split`,
`startswith` or `+=` can raise, so the parse itself is total and always
produces the structured dictionary. -/
def parseSections (res : String) : PyResult :=
  let acc := (splitLines res).foldl parseLine ⟨"", "", "", ""⟩
  .structuredFields (pyStrip acc.answer) (pyStrip acc.sources) (pyStrip acc.excerpts)

/-- A line that would switch the parser's section. -/
def isMarkerLine (line : String) : Bool :=
  strStartsWith line "ANSWER:" || strStartsWith line "SOURCES:" ||
    strStartsWith line "RELEVANT EXCERPTS:"

/-- No line of the text begins with any of the three section markers. -/
def noMarkers (s : String) : Bool :=
  (splitLines s).all fun line => !(isMarkerLine line)

/-! ### The server handlers (src/server.py) -/

/-- The names `server.py` binds from its `model` module
(src/server.py lines 10-16).  Note the plural
`ask_numerical_questions`: the singular name used at lines 130 and 196
is never bound, so calling it raises a Python `NameError`. -/
def serverModelImports : List String :=
  ["build_database", "ask_questions", "ask_numerical_questions", "query_database", "CHROMA"]

/-- The NameError message produced by evaluating the unbound name
`ask_numerical_question` (Python quotes the name; the quotes are omitted
here).  Nonempty, like every `str(e)` of a raised exception. -/
def nameErrorMsg : String :=
  "NameError: name ask_numerical_question is not defined"

/-- Python name resolution for the call `ask_numerical_question(q)` at
src/server.py lines 130 and 196: if the name were bound the imported
function (an external oracle `numGen`) would run; since only the plural
form is imported, evaluation raises `NameError` before any call. -/
def numericalResolve (numGen : String → Except String String) (q : String) :
    Except String String :=
  if "ask_numerical_question" ∈ serverModelImports then numGen q
  else .error nameErrorMsg

/-- The common dispatch on the request type shared by `ask_question`
(src/server.py lines 129-172) and `process_single_question`
(lines 195-236): `numerical` resolves and calls the (unbound)
`ask_numerical_question`; `query` calls `query_database`; anything else
calls `ask_questions` and parses the answer into sections.
Oracles: `gen` = `ask_questions`, `qdb` = `query_database`,
`numGen` = what `ask_numerical_question` would be if it were bound. -/
def processCore (gen qdb numGen : String → Except String String)
    (question qtype : String) : Except String PyResult :=
  if qtype = "numerical" then (numericalResolve numGen question).map .rawOutput
  else if qtype = "query" then (qdb question).map .rawOutput
  else (gen question).map parseSections

/-- Name of the external model-module function a given request type
invokes (recorded as the handler's attempted external call). -/
def coreCallName (qtype : String) : String :=
  if qtype = "numerical" then "ask_numerical_question"
  else if qtype = "query" then "query_database"
  else "ask_questions"

/-- Request body of `POST /ask` (src/server.py lines 42-44). -/
structure QuestionRequest where
  question : String
  qtype : String
deriving DecidableEq

/-- Response model of `POST /ask` (src/server.py lines 53-59). -/
structure QuestionResponse where
  success : Bool
  question : String
  qtype : String
  result : PyResult
  error : Option String
deriving DecidableEq

/-- Outcome of a handler: either a raised `HTTPException` (status code
and detail), which FastAPI turns into a structured error response, or a
normal response body. -/
inductive HandlerOutcome where
  | httpError (status : Nat) (detail : String)
  | ok (resp : QuestionResponse)
deriving DecidableEq

/-- A handler run: its outcome plus the list of external model-module
calls it attempted, in order (empty when the handler returned before
reaching the retrieval/generation machinery). -/
structure HandlerRun where
  outcome : HandlerOutcome
  calls : List String
deriving DecidableEq

/-- The `POST /ask` handler `ask_question` (src/server.py lines
119-188): reject with 503 when the readiness flag is down, with 400 when
the stripped question is empty; otherwise dispatch on the type and wrap
the outcome in a `QuestionResponse` — any exception from the dispatched
call is caught and returned as a `success = false` record with `error`
set (lines 180-188), never re-raised. -/
def askQuestion (ready : Bool) (gen qdb numGen : String → Except String String)
    (req : QuestionRequest) : HandlerRun :=
  if ready then
    if pyStrip req.question = "" then
      ⟨.httpError 400 "Question cannot be empty", []⟩
    else
      match processCore gen qdb numGen req.question req.qtype with
      | .ok pr =>
        ⟨.ok { success := true, question := req.question, qtype := req.qtype,
               result := pr, error := none }, [coreCallName req.qtype]⟩
      | .error e =>
        ⟨.ok { success := false, question := req.question, qtype := req.qtype,
               result := .emptyDict, error := some e }, [coreCallName req.qtype]⟩
  else ⟨.httpError 503 "RAG system not ready. Build database first.", []⟩

/-- One entry of a batch result, the dictionary built by
`process_single_question` (src/server.py lines 238-251): the success
shape carries `result` and no `error` key, the failure shape carries
`error` and no `result` key; both echo the question and the type. -/
structure BatchEntry where
  question : String
  success : Bool
  result : Option PyResult
  error : Option String
  qtype : String
deriving DecidableEq

/-- `process_single_question` (src/server.py lines 190-251): run the
dispatch for one question; an exception is caught and converted into a
failed entry with the message captured (lines 244-251). -/
def processSingleQuestion (gen qdb numGen : String → Except String String)
    (question qtype : String) : BatchEntry :=
  match processCore gen qdb numGen question qtype with
  | .ok pr =>
    { question := question, success := true, result := some pr, error := none, qtype := qtype }
  | .error e =>
    { question := question, success := false, result := none, error := some e, qtype := qtype }

/-- Response model of `POST /ask/batch` (src/server.py lines 61-65). -/
structure BatchResponse where
  success : Bool
  totalQuestions : Nat
  results : List BatchEntry
deriving DecidableEq

/-- Outcome of the batch handler. -/
inductive BatchOutcome where
  | httpError (status : Nat) (detail : String)
  | ok (resp : BatchResponse)
deriving DecidableEq

/-- Python `request.type or "standard"` (src/server.py line 266):
a missing or empty type string falls back to `"standard"`. -/
def effectiveType : Option String → String
  | none => "standard"
  | some t => if t = "" then "standard" else t

/-- The `POST /ask/batch` handler `ask_batch_questions` (src/server.py
lines 253-284): 503 when not ready; 400 when the question list is empty;
400 when it has more than 10 elements; otherwise process every question
sequentially and independently through `process_single_question` and
return a `BatchResponse` whose top-level `success` field is the literal
`True` (line 277). -/
def askBatchQuestions (ready : Bool) (gen qdb numGen : String → Except String String)
    (questions : List String) (qtype : Option String) : BatchOutcome :=
  if ready then
    if questions.length = 0 then
      .httpError 400 "Questions array cannot be empty"
    else if 10 < questions.length then
      .httpError 400 "Maximum 10 questions allowed per batch"
    else
      .ok { success := true, totalQuestions := questions.length,
            results := questions.map
              (fun q => processSingleQuestion gen qdb numGen q (effectiveType qtype)) }
  else .httpError 503 "RAG system not ready. Build database first."

/-- Whether a batch outcome is a 400 `InvalidInput`-class rejection. -/
def isHttp400 : BatchOutcome → Bool
  | .httpError 400 _ => true
  | _ => false

/-! ### The FAISS retrieval pipeline (src/model.py)

`EnhancedMathRAGSystem` holds a dataset of question/answer/context
records.  `create_vector_index` (lines 16-35) encodes
`"Question: " + item['question']` for every item, L2-normalizes the
embedding matrix in place (`faiss.normalize_L2`, line 32) and inserts
the whole matrix into a fresh `IndexFlatIP` with a single `index.add`
call (line 33).  `retrieve_similar_problems` (lines 37-58) raises a
`ValueError` when the index is `None`, otherwise encodes and
L2-normalizes `"Question: " + query` with the same two functions and
runs `index.search(·, k)`.

Embedding vectors are lists of rationals; the sentence-transformer
`encode` and `faiss.normalize_L2` are arbitrary function parameters
`embed : String → Vector` and `normalize : Vector → Vector` — what
matters for the claims is that the identical functions are applied to
the corpus at build time and to the query at search time — and
`IndexFlatIP.search` is modelled by its documented exact semantics:
score of a stored vector is the inner product with the query vector, the
`k` best are returned in descending order, and the output always has
exactly `k` columns — when the index holds fewer than `k` vectors the
missing slots are padded with label `-1` and score `-FLT_MAX`. -/

/-- An embedding vector (machine floats modelled as rationals). -/
abbrev Vec : Type := List ℚ

/-- Inner product of two vectors, as `IndexFlatIP` scores them. -/
def dot (u v : Vec) : ℚ :=
  (List.zipWith (fun a b => a * b) u v).sum

/-- One record of the processed dataset: `split_prompt`
(src/model.py lines 267-279) always yields the keys `question`,
`answer` and `context`, with `item.get('context','')` (line 55)
defaulting a missing context to the empty string. -/
structure DataItem where
  question : String
  answer : String
  context : String
deriving DecidableEq

/-- The corpus texts of `create_vector_index` (src/model.py line 21),
embedded and normalized: one vector per dataset item, in order. -/
def storedVectors (embed : String → Vec) (normalize : Vec → Vec)
    (ds : List DataItem) : List Vec :=
  ds.map (fun it => normalize (embed ("Question: " ++ it.question)))

/-- The query-side vector of `retrieve_similar_problems`
(src/model.py lines 42-43): the same `"Question: "` framing, the same
encoder and the same `faiss.normalize_L2` as at build time. -/
def queryVector (embed : String → Vec) (normalize : Vec → Vec) (q : String) : Vec :=
  normalize (embed ("Question: " ++ q))

/-- A FAISS index as the sequence of `index.add` calls made to it; the
stored vectors are their concatenation in call order. -/
structure FaissIndex where
  addCalls : List (List Vec)
deriving DecidableEq

/-- Vectors held by the index: concatenation of all `add` calls. -/
def FaissIndex.vectors (ix : FaissIndex) : List Vec :=
  ix.addCalls.flatten

/-- The `index.add` calls `create_vector_index` performs: exactly one,
passing the entire normalized embedding matrix
(src/model.py line 33). -/
def createIndexAddCalls (embed : String → Vec) (normalize : Vec → Vec)
    (ds : List DataItem) : List (List Vec) :=
  [storedVectors embed normalize ds]

/-- State of an `EnhancedMathRAGSystem`: the dataset and the optional
index (`self.index` is `None` until `create_vector_index` runs). -/
structure RAGState where
  dataset : List DataItem
  index : Option FaissIndex
deriving DecidableEq

/-- `create_vector_index` (src/model.py lines 16-35). -/
def createVectorIndex (embed : String → Vec) (normalize : Vec → Vec)
    (ds : List DataItem) : RAGState :=
  { dataset := ds, index := some ⟨createIndexAddCalls embed normalize ds⟩ }

/-- The score FAISS reports for a padded (absent) result slot:
`-FLT_MAX`, written out exactly. -/
def faissPadScore : ℚ :=
  -340282346638528859811704183484516925440

/-- Score/label pairs of all stored vectors against a query, labels
counted from `j`. -/
def scoredFrom (q : Vec) : Nat → List Vec → List (ℚ × Int)
  | _, [] => []
  | j, v :: rest => (dot q v, (j : Int)) :: scoredFrom q (j + 1) rest

/-- `IndexFlatIP.search(q, k)` over the stored vectors `db`: all vectors
scored by inner product with `q`, sorted by descending score, the first
`k` taken, and the result padded to exactly `k` entries with
`(-FLT_MAX, -1)` when fewer than `k` vectors are stored. -/
def faissSearchIP (db : List Vec) (q : Vec) (k : Nat) : List (ℚ × Int) :=
  let sorted := List.insertionSort (fun a b : ℚ × Int => b.1 ≤ a.1) (scoredFrom q 0 db)
  sorted.take k ++ List.replicate (k - db.length) (faissPadScore, -1)

/-- Python sequence indexing `l[i]` for a possibly negative `i`:
negative indices count from the end; out-of-range access is an
`IndexError`, modelled as `none`. -/
def pyGet {α : Type} (l : List α) (i : Int) : Option α :=
  let j : Int := if i < 0 then (l.length : Int) + i else i
  if 0 ≤ j then l[j.toNat]? else none

/-- One retrieved result row (src/model.py lines 50-56). -/
structure ResultEntry where
  rank : Nat
  score : ℚ
  question : String
  answer : String
  context : String
deriving DecidableEq

/-- The result-building loop of `retrieve_similar_problems`
(src/model.py lines 47-56): for the `i`-th `(score, idx)` pair the row
`{rank: i+1, score, question: dataset[idx][...], ...}` is appended;
`dataset[idx]` follows Python indexing, so `idx = -1` (a FAISS padding
label) reads the last dataset item and raises `IndexError` on an empty
dataset. -/
def buildResults (ds : List DataItem) : Nat → List (ℚ × Int) →
    Except String (List ResultEntry)
  | _, [] => .ok []
  | i, (s, idx) :: rest =>
    match pyGet ds idx with
    | none => .error "IndexError: list index out of range"
    | some it =>
      match buildResults ds (i + 1) rest with
      | .error e => .error e
      | .ok tail =>
        .ok ({ rank := i + 1, score := s, question := it.question,
               answer := it.answer, context := it.context } :: tail)

/-- `retrieve_similar_problems` (src/model.py lines 37-58). -/
def retrieveSimilarProblems (embed : String → Vec) (normalize : Vec → Vec)
    (st : RAGState) (q : String) (k : Nat) : Except String (List ResultEntry) :=
  match st.index with
  | none => .error "ValueError: Vector index not created. Call create_vector_index() first."
  | some ix =>
    buildResults st.dataset 0
      (faissSearchIP ix.vectors (queryVector embed normalize q) k)

/-! ### Concrete fixtures used by witnesses and counterexamples -/

/-- An external oracle that always fails. -/
def oracleNone : String → Except String String := fun _ => .error "generation failed"

/-- A generator that raises on the second of three batch questions. -/
def genBoom : String → Except String String :=
  fun q => if q = "q2" then .error "boom" else .ok "ANSWER:\nfine\n"

/-- A concrete embedder whose output is already a unit vector, so that
L2 normalization on it is the identity. -/
def embedC : String → Vec := fun _ => [3 / 5, 4 / 5]

/-- L2 normalization restricted to the unit vectors `embedC` produces:
the identity. -/
def normC : Vec → Vec := fun v => v

/-- A one-item dataset. -/
def dsOne : List DataItem := [⟨"a", "b", "c"⟩]

/-- A two-item dataset. -/
def dsTwo : List DataItem := [⟨"a", "b", "c"⟩, ⟨"d", "e", "f"⟩]

/-- A 250-item dataset: larger than two default embedding batches. -/
def dsBig : List DataItem := List.replicate 250 ⟨"q", "r", "s"⟩

/-- A text containing none of the three section markers. -/
def noMarkerText : String := "The capital of France is Paris."

/-! ### Helper lemmas -/

theorem scoredFrom_length (q : Vec) :
    ∀ (j : Nat) (db : List Vec), (scoredFrom q j db).length = db.length := by
  intro j db
  induction db generalizing j with
  | nil => rfl
  | cons v rest ih => simp [scoredFrom, ih]

theorem mem_scoredFrom {q : Vec} :
    ∀ {db : List Vec} {j : Nat} {p : ℚ × Int}, p ∈ scoredFrom q j db →
      ∃ m, ∃ h : m < db.length, p.1 = dot q db[m] ∧ p.2 = ((j + m : Nat) : Int) := by
  intro db
  induction db with
  | nil => intro j p hp; simp [scoredFrom] at hp
  | cons v rest ih =>
    intro j p hp
    rw [scoredFrom] at hp
    rcases List.mem_cons.1 hp with h | h
    · exact ⟨0, by simp, by simp [h], by simp [h]⟩
    · obtain ⟨m, hm, h1, h2⟩ := ih h
      refine ⟨m + 1, by simpa using Nat.succ_lt_succ hm, by simpa using h1, ?_⟩
      rw [h2]
      congr 1
      omega

theorem faissSearchIP_length (db : List Vec) (q : Vec) (k : Nat) :
    (faissSearchIP db q k).length = k := by
  unfold faissSearchIP
  rw [List.length_append, List.length_take, List.length_replicate,
    (List.perm_insertionSort _ _).length_eq, scoredFrom_length]
  omega

theorem mem_faissSearchIP {db : List Vec} {q : Vec} {k : Nat} {p : ℚ × Int}
    (hp : p ∈ faissSearchIP db q k) :
    (∃ m, ∃ h : m < db.length, p.1 = dot q db[m] ∧ p.2 = (m : Int)) ∨
      p = (faissPadScore, -1) := by
  unfold faissSearchIP at hp
  rcases List.mem_append.1 hp with h | h
  · left
    have h1 := List.take_subset _ _ h
    have h2 := (List.perm_insertionSort _ _).mem_iff.1 h1
    obtain ⟨m, hm, h3, h4⟩ := mem_scoredFrom h2
    exact ⟨m, hm, h3, by simpa using h4⟩
  · right
    exact List.eq_of_mem_replicate h

theorem mem_faissSearchIP_of_le {db : List Vec} {q : Vec} {k : Nat} {p : ℚ × Int}
    (hk : k ≤ db.length) (hp : p ∈ faissSearchIP db q k) :
    ∃ m, ∃ h : m < db.length, p.1 = dot q db[m] ∧ p.2 = (m : Int) := by
  unfold faissSearchIP at hp
  rw [Nat.sub_eq_zero_of_le hk] at hp
  simp only [List.replicate_zero, List.append_nil] at hp
  have h1 := List.take_subset _ _ hp
  have h2 := (List.perm_insertionSort _ _).mem_iff.1 h1
  obtain ⟨m, hm, h3, h4⟩ := mem_scoredFrom h2
  exact ⟨m, hm, h3, by simpa using h4⟩

theorem pyGet_natCast {α : Type} (l : List α) (m : Nat) (h : m < l.length) :
    pyGet l (m : Int) = some l[m] := by
  have h0 : ¬ ((m : Int) < 0) := by omega
  have h1 : (0 : Int) ≤ (m : Int) := by omega
  simp only [pyGet]
  rw [if_neg h0, if_pos h1]
  have hm : ((m : Int)).toNat = m := by omega
  rw [hm]
  exact List.getElem?_eq_getElem h

theorem pyGet_neg_one_isSome {α : Type} (l : List α) (h : 1 ≤ l.length) :
    (pyGet l (-1)).isSome = true := by
  have h0 : (-1 : Int) < 0 := by omega
  have h1 : (0 : Int) ≤ (l.length : Int) + -1 := by omega
  simp only [pyGet]
  rw [if_pos h0, if_pos h1]
  have hm : ((l.length : Int) + -1).toNat = l.length - 1 := by omega
  rw [hm, List.getElem?_eq_getElem (by omega)]
  rfl

theorem buildResults_spec (ds : List DataItem) :
    ∀ (pairs : List (ℚ × Int)) (i : Nat),
      (∀ p ∈ pairs, (pyGet ds p.2).isSome = true) →
      ∃ rs, buildResults ds i pairs = .ok rs ∧ rs.length = pairs.length ∧
        ∀ r ∈ rs, ∃ p ∈ pairs, ∃ it, pyGet ds p.2 = some it ∧ r.score = p.1 ∧
          r.question = it.question ∧ r.answer = it.answer ∧ r.context = it.context := by
  intro pairs
  induction pairs with
  | nil => intro i _; exact ⟨[], rfl, rfl, by simp⟩
  | cons p rest ih =>
    intro i hall
    obtain ⟨s, idx⟩ := p
    have h1 : (pyGet ds idx).isSome = true := hall (s, idx) (List.mem_cons_self _ _)
    obtain ⟨it, hit⟩ := Option.isSome_iff_exists.1 h1
    obtain ⟨tl, htl, hlen, hmem⟩ := ih (i + 1) (fun p hp => hall p (List.mem_cons_of_mem _ hp))
    refine ⟨{ rank := i + 1, score := s, question := it.question,
              answer := it.answer, context := it.context } :: tl, ?_, ?_, ?_⟩
    · simp [buildResults, hit, htl]
    · simpa using congrArg Nat.succ hlen
    · intro r hr
      rcases List.mem_cons.1 hr with h | h
      · exact ⟨(s, idx), List.mem_cons_self _ _, it, hit,
          by rw [h], by rw [h], by rw [h], by rw [h]⟩
      · obtain ⟨p', hp', rest'⟩ := hmem r h
        exact ⟨p', List.mem_cons_of_mem _ hp', rest'⟩

theorem buildResults_error_head (ds : List DataItem) (i : Nat) (s : ℚ) (idx : Int)
    (rest : List (ℚ × Int)) (h : pyGet ds idx = none) :
    buildResults ds i ((s, idx) :: rest) = .error "IndexError: list index out of range" := by
  rw [buildResults, h]

theorem retrieve_create (embed : String → Vec) (normalize : Vec → Vec)
    (ds : List DataItem) (q : String) (k : Nat) :
    retrieveSimilarProblems embed normalize (createVectorIndex embed normalize ds) q k =
      buildResults ds 0 (faissSearchIP (storedVectors embed normalize ds)
        (queryVector embed normalize q) k) := by
  simp [retrieveSimilarProblems, createVectorIndex, createIndexAddCalls, FaissIndex.vectors]

theorem processSingle_question (gen qdb numGen : String → Except String String)
    (q t : String) : (processSingleQuestion gen qdb numGen q t).question = q := by
  unfold processSingleQuestion
  cases processCore gen qdb numGen q t <;> rfl

theorem processSingle_standard_error (gen qdb numGen : String → Except String String)
    (q e : String) (hg : gen q = .error e) :
    (processSingleQuestion gen qdb numGen q "standard").success = false ∧
    (processSingleQuestion gen qdb numGen q "standard").error = some e := by
  unfold processSingleQuestion processCore
  rw [if_neg (by decide), if_neg (by decide), hg]
  exact ⟨rfl, rfl⟩

theorem foldl_parseLine_id :
    ∀ (lines : List String) (acc : ParseAcc), acc.current = "" →
      (∀ l ∈ lines, isMarkerLine l = false) →
      lines.foldl parseLine acc = acc := by
  intro lines
  induction lines with
  | nil => intro acc _ _; rfl
  | cons l ls ih =>
    intro acc hc hall
    have hm : isMarkerLine l = false := hall l (List.mem_cons_self _ _)
    simp only [isMarkerLine, Bool.or_eq_false_iff] at hm
    have hstep : parseLine acc l = acc := by
      unfold parseLine
      rw [hm.1.1, hm.1.2, hm.2, hc]
      simp
    rw [List.foldl_cons, hstep]
    exact ih acc hc (fun x hx => hall x (List.mem_cons_of_mem _ hx))

theorem parseSections_of_noMarkers (s : String) (h : noMarkers s = true) :
    parseSections s = .structuredFields "" "" "" := by
  unfold parseSections
  have hall : ∀ l ∈ splitLines s, isMarkerLine l = false := by
    intro l hl
    have := List.all_eq_true.1 h l hl
    simpa using this
  rw [foldl_parseLine_id (splitLines s) ⟨"", "", "", ""⟩ rfl hall]
  rfl

/-! ### Claims -/

/-- C1, counterexample.  The claim fails when `k` exceeds the number of
indexed entries: with one indexed item and `k = 2`, FAISS pads the
second result slot with label `-1` and score `-FLT_MAX`; the result loop
turns it into an entry for the last dataset item (Python `dataset[-1]`)
whose reported score is the sentinel, not the inner product of the
normalized query and corpus vectors (which here is `1`). -/
theorem c1_counterexample :
    retrieveSimilarProblems embedC normC (createVectorIndex embedC normC dsOne) "a" 2 =
      .ok [⟨1, dot (queryVector embedC normC "a")
              (normC (embedC ("Question: " ++ "a"))), "a", "b", "c"⟩,
           ⟨2, faissPadScore, "a", "b", "c"⟩] ∧
    faissPadScore ≠ dot (queryVector embedC normC "a")
        (normC (embedC ("Question: " ++ "a"))) := by
  constructor
  · rfl
  · have h1 : dot (queryVector embedC normC "a")
        (normC (embedC ("Question: " ++ "a"))) = 1 := by
      simp [dot, queryVector, normC, embedC]
      norm_num
    rw [h1]
    norm_num [faissPadScore]

/-- C1 (amended): the query embedding is normalized by the same function
applied to the corpus embeddings at index-build time, and whenever `k`
does not exceed the number of indexed entries, each retrieved entry's
score equals the inner product of the two normalized vectors; when `k`
exceeds the entry count the FAISS padding rows produce extra entries
whose score is the sentinel `-FLT_MAX`, not an inner product. -/
theorem c1_cosine_scores (embed : String → Vec) (normalize : Vec → Vec)
    (ds : List DataItem) (q : String) (k : Nat) (hk : k ≤ ds.length) :
    queryVector embed normalize q = normalize (embed ("Question: " ++ q)) ∧
    storedVectors embed normalize ds =
      ds.map (fun it => normalize (embed ("Question: " ++ it.question))) ∧
    ∃ rs, retrieveSimilarProblems embed normalize
        (createVectorIndex embed normalize ds) q k = .ok rs ∧
      ∀ r ∈ rs, ∃ m, ∃ h : m < ds.length,
        r.score = dot (queryVector embed normalize q)
          (normalize (embed ("Question: " ++ (ds.get ⟨m, h⟩).question))) ∧
        r.question = (ds.get ⟨m, h⟩).question ∧
        r.answer = (ds.get ⟨m, h⟩).answer := by
  refine ⟨rfl, rfl, ?_⟩
  have hdb : (storedVectors embed normalize ds).length = ds.length :=
    List.length_map _ _
  have hsome : ∀ p ∈ faissSearchIP (storedVectors embed normalize ds)
      (queryVector embed normalize q) k, (pyGet ds p.2).isSome = true := by
    intro p hp
    obtain ⟨m, hm, h1, h2⟩ := mem_faissSearchIP_of_le (by omega) hp
    rw [h2, pyGet_natCast ds m (by omega)]
    rfl
  obtain ⟨rs, hok, hlen, hmem⟩ := buildResults_spec ds _ 0 hsome
  refine ⟨rs, by rw [retrieve_create]; exact hok, ?_⟩
  intro r hr
  obtain ⟨p, hp, it, hit, hsc, hq, ha, hc⟩ := hmem r hr
  obtain ⟨m, hm, h1, h2⟩ := mem_faissSearchIP_of_le (by omega) hp
  have hmds : m < ds.length := by omega
  have hit' : it = ds.get ⟨m, hmds⟩ := by
    rw [h2, pyGet_natCast ds m hmds] at hit
    have := Option.some.inj hit
    simpa [List.get_eq_getElem] using this.symm
  refine ⟨m, hmds, ?_, ?_, ?_⟩
  · rw [hsc, h1]
    have hgm : (storedVectors embed normalize ds)[m] =
        normalize (embed ("Question: " ++ (ds.get ⟨m, hmds⟩).question)) := by
      simp [storedVectors, List.getElem_map, List.get_eq_getElem]
    rw [hgm]
  · rw [hq, hit']
  · rw [ha, hit']

/-- C1, witness for the amended theorem at a concrete instance. -/
theorem c1_cosine_scores_witness :
    1 ≤ dsTwo.length ∧
    ∃ rs, retrieveSimilarProblems embedC normC
        (createVectorIndex embedC normC dsTwo) "x" 1 = .ok rs ∧
      ∀ r ∈ rs, ∃ m, ∃ h : m < dsTwo.length,
        r.score = dot (queryVector embedC normC "x")
          (normC (embedC ("Question: " ++ (dsTwo.get ⟨m, h⟩).question))) ∧
        r.question = (dsTwo.get ⟨m, h⟩).question ∧
        r.answer = (dsTwo.get ⟨m, h⟩).answer :=
  ⟨by decide, (c1_cosine_scores embedC normC dsTwo "x" 1 (by decide)).2.2⟩

/-- C2, counterexample.  With one indexed entry and `k = 3` the search
returns three results (the FAISS output always has `k` columns, and the
loop over `zip(scores[0], indices[0])` materializes every one of them),
not one; and searching an index built over an empty dataset raises an
`IndexError` (the padding label `-1` is looked up in the empty dataset),
not an empty result. -/
theorem c2_counterexample :
    (∃ rs, retrieveSimilarProblems embedC normC
        (createVectorIndex embedC normC dsOne) "a" 3 = .ok rs ∧
      rs.length = 3 ∧ ¬ rs.length = dsOne.length) ∧
    retrieveSimilarProblems embedC normC
        (createVectorIndex embedC normC ([] : List DataItem)) "a" 3 =
      .error "IndexError: list index out of range" := by
  refine ⟨⟨[⟨1, dot (queryVector embedC normC "a")
      (normC (embedC ("Question: " ++ "a"))), "a", "b", "c"⟩,
    ⟨2, faissPadScore, "a", "b", "c"⟩,
    ⟨3, faissPadScore, "a", "b", "c"⟩], rfl, rfl, by decide⟩, rfl⟩

/-- C2 (amended): for every `k`, searching an index over a non-empty
dataset returns exactly `k` results — when `n < k` the `k - n` padding
rows resolve through Python negative indexing to the last dataset entry
— and searching an index over an empty dataset with `k ≥ 1` raises an
`IndexError` rather than returning an empty sequence. -/
theorem c2_search_count (embed : String → Vec) (normalize : Vec → Vec)
    (ds : List DataItem) (q : String) (k : Nat) :
    (1 ≤ ds.length → ∃ rs, retrieveSimilarProblems embed normalize
        (createVectorIndex embed normalize ds) q k = .ok rs ∧ rs.length = k) ∧
    (ds = [] → 1 ≤ k → retrieveSimilarProblems embed normalize
        (createVectorIndex embed normalize ds) q k =
      .error "IndexError: list index out of range") := by
  constructor
  · intro hn
    have hdb : (storedVectors embed normalize ds).length = ds.length :=
      List.length_map _ _
    have hsome : ∀ p ∈ faissSearchIP (storedVectors embed normalize ds)
        (queryVector embed normalize q) k, (pyGet ds p.2).isSome = true := by
      intro p hp
      rcases mem_faissSearchIP hp with ⟨m, hm, _, h2⟩ | hpad
      · rw [h2, pyGet_natCast ds m (by omega)]
        rfl
      · rw [hpad]
        exact pyGet_neg_one_isSome ds hn
    obtain ⟨rs, hok, hlen, _⟩ := buildResults_spec ds _ 0 hsome
    refine ⟨rs, by rw [retrieve_create]; exact hok, ?_⟩
    rw [hlen, faissSearchIP_length]
  · rintro rfl hk
    rw [retrieve_create]
    have h0 : faissSearchIP (storedVectors embed normalize [])
        (queryVector embed normalize q) k = List.replicate k (faissPadScore, -1) := by
      simp [faissSearchIP, storedVectors, scoredFrom]
    rw [h0]
    cases k with
    | zero => omega
    | succ n =>
      rw [List.replicate_succ]
      exact buildResults_error_head _ _ _ _ _ rfl

/-- C2, witness for the amended theorem at concrete instances. -/
theorem c2_search_count_witness :
    (1 ≤ dsOne.length ∧ ∃ rs, retrieveSimilarProblems embedC normC
        (createVectorIndex embedC normC dsOne) "a" 3 = .ok rs ∧ rs.length = 3) ∧
    retrieveSimilarProblems embedC normC
        (createVectorIndex embedC normC ([] : List DataItem)) "a" 2 =
      .error "IndexError: list index out of range" :=
  ⟨⟨by decide, (c2_search_count embedC normC dsOne "a" 3).1 (by decide)⟩,
   (c2_search_count embedC normC [] "a" 2).2 rfl (by decide)⟩

/-- C3, counterexample.  On model output containing no section marker
the parse does not raise, so the `except` fallback that would produce
`{"raw_output": ...}` is never reached: the parse returns the structured
dictionary with all three fields empty and the text discarded, not the
raw text.  The same holds end-to-end through the `/ask` handler. -/
theorem c3_counterexample :
    noMarkers noMarkerText = true ∧
    parseSections noMarkerText = .structuredFields "" "" "" ∧
    parseSections noMarkerText ≠ .rawOutput noMarkerText ∧
    (askQuestion true (fun _ => .ok noMarkerText) oracleNone oracleNone
        ⟨"What is the capital of France", "standard"⟩).outcome =
      .ok ⟨true, "What is the capital of France", "standard",
        .structuredFields "" "" "", none⟩ := by
  exact ⟨rfl, rfl, by decide, rfl⟩

/-- C3 (amended): for every model output with no section markers the
parse step returns, without error, a structured result whose three
fields are all empty — the raw text is dropped, and the raw-output
fallback field is not produced (it is reached only when parsing raises,
which a string output cannot cause). -/
theorem c3_no_marker_parse (s : String) (hs : noMarkers s = true) :
    parseSections s = .structuredFields "" "" "" ∧
    ∀ (gen qdb numGen : String → Except String String) (q : String),
      gen q = .ok s → pyStrip q ≠ "" →
      (askQuestion true gen qdb numGen ⟨q, "standard"⟩).outcome =
        .ok { success := true, question := q, qtype := "standard",
              result := .structuredFields "" "" "", error := none } := by
  refine ⟨parseSections_of_noMarkers s hs, ?_⟩
  intro gen qdb numGen q hgen hq
  have hcore : processCore gen qdb numGen q "standard" =
      .ok (PyResult.structuredFields "" "" "") := by
    unfold processCore
    rw [if_neg (by decide), if_neg (by decide), hgen]
    simp [Except.map, parseSections_of_noMarkers s hs]
  unfold askQuestion
  rw [if_pos rfl, if_neg hq, hcore]

/-- C3, witness for the amended theorem at a concrete instance. -/
theorem c3_no_marker_parse_witness :
    noMarkers "plain text answer" = true ∧
    parseSections "plain text answer" = .structuredFields "" "" "" ∧
    (askQuestion true (fun _ => .ok "plain text answer") oracleNone oracleNone
        ⟨"q", "standard"⟩).outcome =
      .ok { success := true, question := "q", qtype := "standard",
            result := .structuredFields "" "" "", error := none } :=
  ⟨rfl, (c3_no_marker_parse "plain text answer" rfl).1,
   (c3_no_marker_parse "plain text answer" rfl).2
     (fun _ => .ok "plain text answer") oracleNone oracleNone "q" rfl (by decide)⟩

/-- C4: the parse step scans the model output line by line — a line
beginning with `ANSWER:` / `SOURCES:` / `RELEVANT EXCERPTS:` switches
the active section (checked in that order, and the marker line itself is
consumed), any other line is appended (with a newline) to the buffer of
the currently active section, and while the active section is still the
initial empty one — i.e. before the first marker — non-marker lines are
dropped; and `"ANSWER:\nParis\nSOURCES:\ndoc1\n"` parses to answer
`"Paris"`, sources `"doc1"`, excerpts `""`. -/
theorem c4_line_scanner :
    (∀ (acc : ParseAcc) (line : String), strStartsWith line "ANSWER:" = true →
      parseLine acc line = { acc with current := "answer" }) ∧
    (∀ (acc : ParseAcc) (line : String), strStartsWith line "ANSWER:" = false →
      strStartsWith line "SOURCES:" = true →
      parseLine acc line = { acc with current := "sources" }) ∧
    (∀ (acc : ParseAcc) (line : String), strStartsWith line "ANSWER:" = false →
      strStartsWith line "SOURCES:" = false →
      strStartsWith line "RELEVANT EXCERPTS:" = true →
      parseLine acc line = { acc with current := "excerpts" }) ∧
    (∀ (acc : ParseAcc) (line : String), isMarkerLine line = false →
      acc.current = "answer" →
      parseLine acc line = { acc with answer := acc.answer ++ line ++ "\n" }) ∧
    (∀ (acc : ParseAcc) (line : String), isMarkerLine line = false →
      acc.current = "sources" →
      parseLine acc line = { acc with sources := acc.sources ++ line ++ "\n" }) ∧
    (∀ (acc : ParseAcc) (line : String), isMarkerLine line = false →
      acc.current = "excerpts" →
      parseLine acc line = { acc with excerpts := acc.excerpts ++ line ++ "\n" }) ∧
    (∀ (acc : ParseAcc) (line : String), isMarkerLine line = false →
      acc.current = "" → parseLine acc line = acc) ∧
    parseSections "ANSWER:\nParis\nSOURCES:\ndoc1\n" =
      .structuredFields "Paris" "doc1" "" := by
  refine ⟨?_, ?_, ?_, ?_, ?_, ?_, ?_, rfl⟩
  · intro acc line h
    simp [parseLine, h]
  · intro acc line h1 h2
    simp [parseLine, h1, h2]
  · intro acc line h1 h2 h3
    simp [parseLine, h1, h2, h3]
  · intro acc line hm hc
    simp only [isMarkerLine, Bool.or_eq_false_iff] at hm
    simp [parseLine, hm.1.1, hm.1.2, hm.2, hc]
  · intro acc line hm hc
    simp only [isMarkerLine, Bool.or_eq_false_iff] at hm
    simp [parseLine, hm.1.1, hm.1.2, hm.2, hc]
  · intro acc line hm hc
    simp only [isMarkerLine, Bool.or_eq_false_iff] at hm
    simp [parseLine, hm.1.1, hm.1.2, hm.2, hc]
  · intro acc line hm hc
    simp only [isMarkerLine, Bool.or_eq_false_iff] at hm
    simp [parseLine, hm.1.1, hm.1.2, hm.2, hc]

/-- C4, witness: concrete parser steps and the concrete example,
obtained by instantiating `c4_line_scanner`. -/
theorem c4_line_scanner_witness :
    parseLine ⟨"", "", "", ""⟩ "ANSWER:" = ⟨"", "", "", "answer"⟩ ∧
    parseLine ⟨"", "", "", "answer"⟩ "Paris" = ⟨"Paris\n", "", "", "answer"⟩ ∧
    parseLine ⟨"", "", "", ""⟩ "before any marker" = ⟨"", "", "", ""⟩ ∧
    parseSections "ANSWER:\nParis\nSOURCES:\ndoc1\n" =
      .structuredFields "Paris" "doc1" "" :=
  ⟨c4_line_scanner.1 ⟨"", "", "", ""⟩ "ANSWER:" rfl,
   c4_line_scanner.2.2.2.1 ⟨"", "", "", "answer"⟩ "Paris" rfl rfl,
   c4_line_scanner.2.2.2.2.2.2.1 ⟨"", "", "", ""⟩ "before any marker" rfl rfl,
   c4_line_scanner.2.2.2.2.2.2.2⟩

/-- C5: with the system ready, the batch handler rejects with a 400
`InvalidInput`-class error exactly when the question list is empty or
longer than 10, and a list of 11 questions is rejected with the
`"Maximum 10 questions allowed per batch"` detail — it is never
silently truncated. -/
theorem c5_batch_bounds (gen qdb numGen : String → Except String String)
    (qs : List String) (t : Option String) :
    (isHttp400 (askBatchQuestions true gen qdb numGen qs t) = true ↔
      qs = [] ∨ 10 < qs.length) ∧
    askBatchQuestions true gen qdb numGen (List.replicate 11 "q") t =
      .httpError 400 "Maximum 10 questions allowed per batch" := by
  constructor
  · by_cases h0 : qs.length = 0
    · have he : qs = [] := List.length_eq_zero.1 h0
      unfold askBatchQuestions
      rw [if_pos rfl, if_pos h0]
      simp [isHttp400, he]
    · by_cases h10 : 10 < qs.length
      · unfold askBatchQuestions
        rw [if_pos rfl, if_neg h0, if_pos h10]
        simp [isHttp400, h10]
      · have hne : ¬ qs = [] := fun h => h0 (by simp [h])
        unfold askBatchQuestions
        rw [if_pos rfl, if_neg h0, if_neg h10]
        simp [isHttp400, hne, h10]
  · rfl

/-- C5, witness: the empty batch is rejected and the 11-question batch
is rejected, by instantiating `c5_batch_bounds`. -/
theorem c5_batch_bounds_witness :
    isHttp400 (askBatchQuestions true oracleNone oracleNone oracleNone [] none) = true ∧
    askBatchQuestions true oracleNone oracleNone oracleNone (List.replicate 11 "q") none =
      .httpError 400 "Maximum 10 questions allowed per batch" :=
  ⟨(c5_batch_bounds oracleNone oracleNone oracleNone [] none).1.mpr (Or.inl rfl),
   (c5_batch_bounds oracleNone oracleNone oracleNone (List.replicate 11 "q") none).2⟩

/-- C6: every accepted batch yields exactly one result entry per input
question, in input order — entry `i` is exactly the independent
processing of question `i`, so one question's failure cannot abort or
skip any other — each entry echoes its question, and in standard mode an
exception `e` raised by the generation step for question `i` is captured
in entry `i` as `success = false` with `error = e`. -/
theorem c6_batch_isolation (gen qdb numGen : String → Except String String)
    (qs : List String) (t : Option String) (hne : qs ≠ []) (hlen : qs.length ≤ 10) :
    ∃ br, askBatchQuestions true gen qdb numGen qs t = .ok br ∧
      br.results.length = qs.length ∧
      (∀ (i : Nat) (q' : String), qs[i]? = some q' →
        br.results[i]? = some (processSingleQuestion gen qdb numGen q' (effectiveType t))) ∧
      (∀ (i : Nat) (q' : String), qs[i]? = some q' →
        ∃ entry, br.results[i]? = some entry ∧ entry.question = q' ∧
          (effectiveType t = "standard" → ∀ e, gen q' = .error e →
            entry.success = false ∧ entry.error = some e)) := by
  have h0 : ¬ qs.length = 0 := fun h => hne (List.length_eq_zero.1 h)
  have hrun : askBatchQuestions true gen qdb numGen qs t =
      .ok { success := true, totalQuestions := qs.length,
            results := qs.map
              (fun q => processSingleQuestion gen qdb numGen q (effectiveType t)) } := by
    unfold askBatchQuestions
    rw [if_pos rfl, if_neg h0, if_neg (by omega)]
  refine ⟨_, hrun, by simp, ?_, ?_⟩
  · intro i q' hq
    simp [List.getElem?_map, hq]
  · intro i q' hq
    refine ⟨processSingleQuestion gen qdb numGen q' (effectiveType t),
      by simp [List.getElem?_map, hq], processSingle_question gen qdb numGen q' _, ?_⟩
    intro heff e hg
    rw [heff]
    exact processSingle_standard_error gen qdb numGen q' e hg

/-- C6, witness: a three-question standard batch where generation raises
exactly on the second question, by instantiating `c6_batch_isolation`:
three entries come back in order and the second is marked failed with
the captured message. -/
theorem c6_batch_isolation_witness :
    (["q1", "q2", "q3"] : List String) ≠ [] ∧
    (["q1", "q2", "q3"] : List String).length ≤ 10 ∧
    genBoom "q2" = .error "boom" ∧
    ∃ br, askBatchQuestions true genBoom oracleNone oracleNone
        ["q1", "q2", "q3"] (some "standard") = .ok br ∧
      br.results.length = 3 ∧
      (∀ (i : Nat) (q' : String), (["q1", "q2", "q3"] : List String)[i]? = some q' →
        ∃ entry, br.results[i]? = some entry ∧ entry.question = q' ∧
          (effectiveType (some "standard") = "standard" → ∀ e, genBoom q' = .error e →
            entry.success = false ∧ entry.error = some e)) := by
  refine ⟨by decide, by decide, rfl, ?_⟩
  obtain ⟨br, h1, h2, _, h4⟩ := c6_batch_isolation genBoom oracleNone oracleNone
    ["q1", "q2", "q3"] (some "standard") (by decide) (by decide)
  exact ⟨br, h1, by simpa using h2, h4⟩

/-- C7: with the readiness flag down (no index built), the `/ask`
handler — for every request type, standard, numerical or query — and the
batch handler both return the structured 503 "not ready" rejection
before attempting any external retrieval or generation call (the
attempted-call trace is empty and the outcome is independent of every
oracle); and at the model layer, `retrieve_similar_problems` on a state
whose index is `None` reports the `ValueError` guard rather than
reaching the search. -/
theorem c7_not_ready_guard :
    (∀ (gen qdb numGen : String → Except String String) (req : QuestionRequest),
      askQuestion false gen qdb numGen req =
        ⟨.httpError 503 "RAG system not ready. Build database first.", []⟩) ∧
    (∀ (gen qdb numGen : String → Except String String)
        (qs : List String) (t : Option String),
      askBatchQuestions false gen qdb numGen qs t =
        .httpError 503 "RAG system not ready. Build database first.") ∧
    (∀ (embed : String → Vec) (normalize : Vec → Vec) (ds : List DataItem)
        (q : String) (k : Nat),
      retrieveSimilarProblems embed normalize ⟨ds, none⟩ q k =
        .error "ValueError: Vector index not created. Call create_vector_index() first.") :=
  ⟨fun _ _ _ _ => rfl, fun _ _ _ _ _ => rfl, fun _ _ _ _ _ => rfl⟩

/-- C8, counterexample.  On a 250-item dataset, `create_vector_index`
issues exactly one `index.add` call carrying all 250 embeddings — not
fixed-size batches of at most 100. -/
theorem c8_counterexample :
    createIndexAddCalls embedC normC dsBig = [storedVectors embedC normC dsBig] ∧
    (createIndexAddCalls embedC normC dsBig).length = 1 ∧
    (storedVectors embedC normC dsBig).length = 250 ∧
    ¬ (storedVectors embedC normC dsBig).length ≤ 100 := by
  have hl : (storedVectors embedC normC dsBig).length = 250 := by
    rw [storedVectors, List.length_map, dsBig, List.length_replicate]
  exact ⟨rfl, rfl, hl, by omega⟩

/-- C8 (amended): `create_vector_index` inserts the whole corpus into
the index in a single bulk `add` call — there is no batch size, no
incremental insertion and no persistence, so a failure during the add
leaves no earlier batch committed (there is no earlier batch). -/
theorem c8_single_bulk_add (embed : String → Vec) (normalize : Vec → Vec)
    (ds : List DataItem) :
    createIndexAddCalls embed normalize ds = [storedVectors embed normalize ds] ∧
    (createIndexAddCalls embed normalize ds).length = 1 ∧
    (createIndexAddCalls embed normalize ds).flatten = storedVectors embed normalize ds ∧
    (createVectorIndex embed normalize ds).index =
      some ⟨createIndexAddCalls embed normalize ds⟩ :=
  ⟨rfl, rfl, by simp [createIndexAddCalls], rfl⟩

/-- C9: a ready-system `/ask` request of type `numerical` with a
non-blank question always comes back `success = false` with a non-empty
error message: the handler invokes `ask_numerical_question`, a name the
module never binds (only `ask_numerical_questions` is imported), and the
resulting `NameError` is caught and converted into the error record. -/
theorem c9_numerical_name_error (gen qdb numGen : String → Except String String)
    (q : String) (hq : pyStrip q ≠ "") :
    "ask_numerical_question" ∉ serverModelImports ∧
    "ask_numerical_questions" ∈ serverModelImports ∧
    (askQuestion true gen qdb numGen ⟨q, "numerical"⟩).outcome =
      .ok { success := false, question := q, qtype := "numerical",
            result := .emptyDict, error := some nameErrorMsg } ∧
    nameErrorMsg ≠ "" := by
  refine ⟨by decide, by decide, ?_, by decide⟩
  have hcore : processCore gen qdb numGen q "numerical" = .error nameErrorMsg := by
    unfold processCore numericalResolve
    rw [if_pos rfl, if_neg (by decide)]
    rfl
  unfold askQuestion
  rw [if_pos rfl, if_neg hq, hcore]

/-- C9, witness at a concrete non-blank question, by instantiating
`c9_numerical_name_error`. -/
theorem c9_numerical_name_error_witness :
    pyStrip "What is 2 + 2" ≠ "" ∧
    (askQuestion true oracleNone oracleNone oracleNone
        ⟨"What is 2 + 2", "numerical"⟩).outcome =
      .ok { success := false, question := "What is 2 + 2", qtype := "numerical",
            result := .emptyDict, error := some nameErrorMsg } :=
  ⟨by decide, (c9_numerical_name_error oracleNone oracleNone oracleNone
    "What is 2 + 2" (by decide)).2.2.1⟩

/-- C10: every accepted batch — for every choice of oracles, including
ones that fail on every question — yields a `BatchResponse` whose
top-level `success` flag is `true`; only the per-entry flags reflect
individual failures. -/
theorem c10_batch_success_flag (gen qdb numGen : String → Except String String)
    (qs : List String) (t : Option String) (hne : qs ≠ []) (hlen : qs.length ≤ 10) :
    ∃ br, askBatchQuestions true gen qdb numGen qs t = .ok br ∧ br.success = true := by
  have h0 : ¬ qs.length = 0 := fun h => hne (List.length_eq_zero.1 h)
  have hrun : askBatchQuestions true gen qdb numGen qs t =
      .ok { success := true, totalQuestions := qs.length,
            results := qs.map
              (fun q => processSingleQuestion gen qdb numGen q (effectiveType t)) } := by
    unfold askBatchQuestions
    rw [if_pos rfl, if_neg h0, if_neg (by omega)]
  exact ⟨_, hrun, rfl⟩

/-- C10, witness: a two-question batch whose every generation call
fails still reports top-level `success = true`, by instantiating
`c10_batch_success_flag` with the always-failing oracle. -/
theorem c10_batch_success_flag_witness :
    (["a", "b"] : List String) ≠ [] ∧ (["a", "b"] : List String).length ≤ 10 ∧
    ∃ br, askBatchQuestions true oracleNone oracleNone oracleNone ["a", "b"] none =
        .ok br ∧ br.success = true :=
  ⟨by decide, by decide, c10_batch_success_flag oracleNone oracleNone oracleNone
    ["a", "b"] none (by decide) (by decide)⟩
